import Mathlib

/-!
Verification of the connection-tracked broadcast relay in
`src/backend/index.js` (Express + Socket.IO server).

The Connection Registry (`const connectedClients = new Map()`) is modelled
as an insertion-ordered association list from socket id to client metadata,
with the `Map` operations `has`, `set`, `delete`, `size`, `keys`, `values`.
Each event handler of the source is embedded as a pure function from the
registry (and the event's data) to the new registry together with the list
of socket events emitted and, for HTTP handlers, the HTTP response.
Wall-clock reads (`new Date()`, `Date.now()`) are passed in as explicit
parameters; a possible exception inside the `try` block of the trigger
handlers is passed in as an `Except` parameter.
-/

/-- Metadata captured at connect time (`clientInfo` in the source):
socket id, remote address, user agent, connection timestamp. -/
structure ClientInfo where
  id : String
  ip : String
  userAgent : String
  connectedAt : Nat
deriving DecidableEq, Repr

/-- The Connection Registry: the JS `Map` from socket id to `ClientInfo`,
as an insertion-ordered association list. -/
abbrev Registry := List (String × ClientInfo)

/-- JS `Map.has(id)`. -/
def Registry.has (r : Registry) (id : String) : Bool :=
  r.any (fun p => p.1 == id)

/-- JS `Map.set(id, v)`: updates in place if the key exists, else appends
(JS `Map` preserves insertion order). -/
def Registry.set (r : Registry) (id : String) (v : ClientInfo) : Registry :=
  if r.has id then r.map (fun p => if p.1 == id then (id, v) else p)
  else r ++ [(id, v)]

/-- JS `Map.delete(id)`: removes the entry for `id` if present. -/
def Registry.delete (r : Registry) (id : String) : Registry :=
  r.filter (fun p => !(p.1 == id))

/-- JS `Map.size`. -/
def Registry.size (r : Registry) : Nat := r.length

/-- JS `Array.from(map.keys())`. -/
def Registry.keys (r : Registry) : List String := r.map (fun p => p.1)

/-- JS `Array.from(map.values())`. -/
def Registry.values (r : Registry) : List ClientInfo := r.map (fun p => p.2)

/-- A socket event emitted by the server: `socket.emit('serverMessage', ...)`
targeted at one session, or one delivery of the `io.emit('triggerSign', ...)`
broadcast to one registered session. -/
inductive Emit where
  | serverMessage (target : String) (message : String)
  | triggerSign (target : String) (message : String) (msgId : String)
deriving DecidableEq, Repr

/-- The session an emitted event is delivered to. -/
def Emit.target : Emit → String
  | .serverMessage t _ => t
  | .triggerSign t _ _ => t

/-- Handler `io.on('connection', ...)` (lines 31-85): if the socket id is not yet in
the registry, insert its record and send the welcome `serverMessage`;
otherwise (duplicate) only log — no insertion, no welcome. -/
def handleConnection (r : Registry) (info : ClientInfo) : Registry × List Emit :=
  if !(r.has info.id) then
    (r.set info.id info,
     [Emit.serverMessage info.id "Connected to MetaMask automation server"])
  else
    (r, [])

/-- Handler `socket.on('disconnect', ...)` (lines 50-54): delete the id. -/
def handleDisconnect (r : Registry) (id : String) : Registry :=
  r.delete id

/-- Handler `socket.on('error', ...)` (lines 57-61): delete the id. -/
def handleSocketError (r : Registry) (id : String) : Registry :=
  r.delete id

/-- A dynamically-typed JS value, as far as the `signMessageResult` payload
needs: a string, or a non-string value on which `.substring` would throw. -/
inductive JsVal where
  | str (s : String)
  | num (n : Int)
  | boolean (b : Bool)
  | nullVal
  | undef
deriving DecidableEq, Repr

/-- The `signMessageResult` payload (`data` in the source). `account` and
`signature` are read only with optional chaining / interpolation, so they are
typed string-or-undefined; `message` is read with plain `.substring`, so it
is kept dynamically typed. -/
structure SignatureReport where
  account : Option String
  message : JsVal
  signature : Option String
deriving DecidableEq, Repr

/-- The acknowledgement text built on line 77:
`Signature received for message: "<substring(0,30)><... if length > 30>"`. -/
def ackText (s : String) : String :=
  "Signature received for message: \x22" ++ s.take 30 ++
    (if 30 < s.length then "..." else "") ++ "\x22"

/-- Handler `socket.on('signMessageResult', ...)` (lines 69-79): logs the report and
emits one acknowledgement `serverMessage` back to the originating session.
`data.message.substring(0, 30)` throws a `TypeError` when `message` is not a
string; the handler's outcome is therefore an `Except`. -/
def handleSignMessageResult (sid : String) (data : SignatureReport) :
    Except String (List Emit) :=
  match data.message with
  | .str m => .ok [Emit.serverMessage sid (ackText m)]
  | _ => .error "TypeError: data.message.substring is not a function"

/-- The body of `GET /api/status` (lines 97-101). `clients` holds
`(id, connectedSince)` pairs. -/
structure StatusResponse where
  status : String
  connectedClients : Nat
  clients : List (String × Nat)
deriving DecidableEq, Repr

/-- Result of the status handler: HTTP status code, JSON body, and the
registry after the handler ran. -/
structure StatusResult where
  status : Nat
  body : StatusResponse
  registry : Registry
deriving DecidableEq, Repr

/-- Handler `app.get('/api/status', ...)` (lines 88-102). -/
def apiStatus (r : Registry) : StatusResult :=
  ⟨200,
   { status := "online",
     connectedClients := r.size,
     clients := r.values.map (fun c => (c.id, c.connectedAt)) },
   r⟩

/-- JSON body of the trigger-sign responses; absent fields are `none`. -/
structure TriggerResponse where
  success : Bool
  message : String
  clients : Option (List String)
  messageId : Option String
  error : Option String
deriving DecidableEq, Repr

/-- Result of a trigger handler: HTTP status code, JSON body, the
`triggerSign` deliveries to the registered sessions, and the registry after
the handler ran. -/
structure HttpResult where
  status : Nat
  body : TriggerResponse
  emits : List Emit
  registry : Registry
deriving DecidableEq, Repr

/-- The POST body `req.body`; `message` is its optional `message` field
(`none` both when the body is empty and when the field is absent). -/
structure PostBody where
  message : Option String
deriving DecidableEq, Repr

/-- Lines 113-116: start from the default string and overwrite it with
`req.body.message` when that is truthy (for a string: non-empty). -/
def postMessage (body : PostBody) : String :=
  match body.message with
  | some s => if s == "" then "Please sign this message from the server." else s
  | none => "Please sign this message from the server."

/-- The server-generated message of the GET handler (line 155), with the
ISO timestamp passed in. -/
def getMessage (nowIso : String) : String :=
  "Please sign this message triggered via GET from the frontend at " ++ nowIso

/-- Handler `app.post('/api/trigger-sign', ...)` (lines 105-143). `now` is
`Date.now()`; `emitResult` is the outcome of the `try` block's broadcast
(`.error e` when an exception with message `e` is thrown). -/
def triggerSignPost (r : Registry) (body : PostBody) (now : Nat)
    (emitResult : Except String Unit) : HttpResult :=
  if r.size == 0 then
    ⟨404,
     { success := false, message := "No clients connected",
       clients := none, messageId := none, error := none },
     [], r⟩
  else
    let message := postMessage body
    match emitResult with
    | .ok _ =>
        let messageId := toString now
        ⟨200,
         { success := true,
           message := "Sign request sent to " ++ toString r.size ++ " client(s)",
           clients := some r.keys,
           messageId := some messageId,
           error := none },
         r.keys.map (fun k => Emit.triggerSign k message messageId), r⟩
    | .error e =>
        ⟨500,
         { success := false, message := "Server error",
           clients := none, messageId := none, error := some e },
         [], r⟩

/-- Handler `app.get('/api/trigger-sign', ...)` (lines 146-180). -/
def triggerSignGet (r : Registry) (now : Nat) (nowIso : String)
    (emitResult : Except String Unit) : HttpResult :=
  if r.size == 0 then
    ⟨404,
     { success := false, message := "No clients connected",
       clients := none, messageId := none, error := none },
     [], r⟩
  else
    let message := getMessage nowIso
    match emitResult with
    | .ok _ =>
        let messageId := toString now
        ⟨200,
         { success := true,
           message := "Sign request sent to " ++ toString r.size ++ " client(s)",
           clients := some r.keys,
           messageId := some messageId,
           error := none },
         r.keys.map (fun k => Emit.triggerSign k message messageId), r⟩
    | .error e =>
        ⟨500,
         { success := false, message := "Server error",
           clients := none, messageId := none, error := some e },
         [], r⟩

/-- The diagnostic printed and whether `process.exit` is called, for a
listen-time error with the given `error.code` (lines 187-196): the
`EADDRINUSE` branch and the `else` branch both call `process.exit(1)`. -/
def handleListenError (port : Nat) (code : String) : String × Bool :=
  if code == "EADDRINUSE" then
    ("Port " ++ toString port ++ " is already in use. Please: 1. Stop any other process using port "
       ++ toString port ++ ", or 2. Use a different port by setting the PORT environment variable",
     true)
  else
    ("Error starting server", true)

/-- Every event the server reacts to, with the data its handler consumes. -/
inductive ServerEvent where
  | connection (info : ClientInfo)
  | disconnect (id : String) (reason : String)
  | socketError (id : String)
  | clientMessage (id : String)
  | signMessageResult (id : String) (data : SignatureReport)
  | statusReq
  | triggerPost (body : PostBody) (now : Nat) (emitResult : Except String Unit)
  | triggerGet (now : Nat) (nowIso : String) (emitResult : Except String Unit)
  | listenError (code : String)

/-- The registry after the handler for the given event runs on registry `r`.
The `clientMessage` and `signMessageResult` handlers and all HTTP handlers
never touch the registry in the source. -/
def step (r : Registry) : ServerEvent → Registry
  | .connection info => (handleConnection r info).1
  | .disconnect id _ => handleDisconnect r id
  | .socketError id => handleSocketError r id
  | .clientMessage _ => r
  | .signMessageResult _ _ => r
  | .statusReq => (apiStatus r).registry
  | .triggerPost body now e => (triggerSignPost r body now e).registry
  | .triggerGet now nowIso e => (triggerSignGet r now nowIso e).registry
  | .listenError _ => r

/-- Whether the handler for the event calls `process.exit`. The only
`process.exit` calls in the source are on lines 192 and 195, both inside the
listen-error handler. -/
def callsProcessExit : ServerEvent → Bool
  | .listenError code => (handleListenError 3000 code).2
  | _ => false

/-- Whether the event is a listen-time port conflict (`EADDRINUSE`). -/
def isAddrInUse : ServerEvent → Bool
  | .listenError code => code == "EADDRINUSE"
  | _ => false

/-! Concrete fixtures used by witnesses and counterexamples. -/

/-- A concrete client record with socket id `A`. -/
def infoA : ClientInfo := ⟨"A", "127.0.0.1", "ua", 10⟩

/-- A concrete client record with socket id `B`. -/
def infoB : ClientInfo := ⟨"B", "127.0.0.2", "ub", 20⟩

/-- A registry holding only client `A`. -/
def regA : Registry := [("A", infoA)]

/-- A registry holding clients `A` and `B`. -/
def regAB : Registry := [("A", infoA), ("B", infoB)]

/-! Helper lemmas. -/

/-- Filtering the broadcast deliveries by target commutes with building them
from the key list. -/
theorem filter_target_map (l : List String) (msg mid id : String) :
    (l.map (fun k => Emit.triggerSign k msg mid)).filter (fun e => e.target == id) =
      (l.filter (fun k => k == id)).map (fun k => Emit.triggerSign k msg mid) := by
  rw [List.filter_map]
  rfl

/-- In a duplicate-free list, filtering for a member id yields exactly that
id once. -/
theorem filter_nodup_mem (l : List String) (id : String)
    (hnd : l.Nodup) (hm : id ∈ l) :
    l.filter (fun k => k == id) = [id] := by
  induction l with
  | nil => cases hm
  | cons a t ih =>
      rcases List.nodup_cons.mp hnd with ⟨hna, hndt⟩
      rcases List.mem_cons.mp hm with h | h
      · subst h
        have hnil : t.filter (fun k => k == id) = [] := by
          refine List.filter_eq_nil_iff.mpr ?_
          intro x hx
          simp only [beq_iff_eq]
          intro hxa
          exact hna (hxa ▸ hx)
        simp [List.filter_cons, hnil]
      · have hne : (a == id) = false := by
          simp only [beq_eq_false_iff_ne]
          intro hai
          exact hna (hai ▸ h)
        simp [List.filter_cons, hne, ih hndt h]

/-- C2: any request to /api/trigger-sign (POST with any body, or GET) made
while the Registry is empty responds 404 with
`{success:false, message:"No clients connected"}` and emits no `triggerSign`
event, leaving the registry empty. -/
theorem trigger_no_clients_404 (r : Registry) (body : PostBody) (now : Nat)
    (nowIso : String) (e1 e2 : Except String Unit) (h : r.size = 0) :
    triggerSignPost r body now e1 =
      ⟨404, ⟨false, "No clients connected", none, none, none⟩, [], r⟩ ∧
    triggerSignGet r now nowIso e2 =
      ⟨404, ⟨false, "No clients connected", none, none, none⟩, [], r⟩ := by
  have hr : r = [] := List.length_eq_zero.mp h
  subst hr
  exact ⟨rfl, rfl⟩

/-- Witness for C2 at the empty registry with a POST body carrying a
message and a GET. -/
theorem trigger_no_clients_404_witness :
    Registry.size [] = 0 ∧
    triggerSignPost [] ⟨some "x"⟩ 3 (.ok ()) =
      ⟨404, ⟨false, "No clients connected", none, none, none⟩, [], []⟩ ∧
    triggerSignGet [] 3 "t" (.error "boom") =
      ⟨404, ⟨false, "No clients connected", none, none, none⟩, [], []⟩ :=
  ⟨rfl,
   (trigger_no_clients_404 [] ⟨some "x"⟩ 3 "t" (.ok ()) (.error "boom") rfl).1,
   (trigger_no_clients_404 [] ⟨some "x"⟩ 3 "t" (.ok ()) (.error "boom") rfl).2⟩

/-- C4: a connect event for an id already present leaves the registry
(hence the existing record and `size()`) unchanged and sends no welcome
`serverMessage`. -/
theorem duplicate_connection_noop (r : Registry) (info : ClientInfo)
    (h : r.has info.id = true) :
    handleConnection r info = (r, []) := by
  simp [handleConnection, h]

/-- Witness for C4: reconnecting id `A` while `A` is registered. -/
theorem duplicate_connection_noop_witness :
    Registry.has regA infoA.id = true ∧ handleConnection regA infoA = (regA, []) :=
  ⟨by decide, duplicate_connection_noop regA infoA (by decide)⟩

/-- C6: removal (disconnect and transport error both call `Map.delete`) is
idempotent: removing twice equals removing once, the id is absent
afterwards, and removal of an absent id is a no-op rather than an error. -/
theorem remove_idempotent (r : Registry) (id : String) :
    handleDisconnect (handleDisconnect r id) id = handleDisconnect r id ∧
    Registry.has (handleDisconnect r id) id = false ∧
    handleSocketError (handleSocketError r id) id = handleSocketError r id ∧
    (Registry.has r id = false → handleDisconnect r id = r) := by
  have habs : Registry.has (Registry.delete r id) id = false := by
    simp only [Registry.has, Registry.delete]
    rw [List.any_eq_false]
    intro p hp
    have hne := (List.mem_filter.mp hp).2
    simpa using hne
  refine ⟨?_, habs, ?_, ?_⟩
  · simp only [handleDisconnect, Registry.delete, List.filter_filter]
    simp
  · simp only [handleSocketError, Registry.delete, List.filter_filter]
    simp
  · intro h
    simp only [handleDisconnect, Registry.delete]
    refine List.filter_eq_self.mpr ?_
    intro p hp
    simp only [Registry.has] at h
    rw [List.any_eq_false] at h
    simpa using h p hp

/-- C7: when the `try` block of a trigger handler throws, the handler
responds 500 with `{success:false, message:"Server error", error:<e>}` and
the registry after the failed request equals the registry before it. -/
theorem broadcast_failure_500 (r : Registry) (body : PostBody) (now : Nat)
    (nowIso err : String) (h : 1 ≤ r.size) :
    (triggerSignPost r body now (.error err)).status = 500 ∧
    (triggerSignPost r body now (.error err)).body =
      ⟨false, "Server error", none, none, some err⟩ ∧
    (triggerSignPost r body now (.error err)).registry = r ∧
    (triggerSignGet r now nowIso (.error err)).status = 500 ∧
    (triggerSignGet r now nowIso (.error err)).body =
      ⟨false, "Server error", none, none, some err⟩ ∧
    (triggerSignGet r now nowIso (.error err)).registry = r := by
  have h0 : Registry.size r ≠ 0 := by omega
  simp [triggerSignPost, triggerSignGet, h0]

/-- Witness for C7 with one registered client. -/
theorem broadcast_failure_500_witness :
    1 ≤ Registry.size regA ∧
    (triggerSignPost regA ⟨none⟩ 9 (.error "boom")).status = 500 ∧
    (triggerSignPost regA ⟨none⟩ 9 (.error "boom")).registry = regA :=
  ⟨by decide,
   (broadcast_failure_500 regA ⟨none⟩ 9 "t" "boom" (by decide)).1,
   (broadcast_failure_500 regA ⟨none⟩ 9 "t" "boom" (by decide)).2.2.1⟩

/-- C9: the three HTTP handlers (status, POST trigger, GET trigger) never
mutate the registry: the registry after each handler equals the registry
before; in the event model, only connect/disconnect/error events change the
registry. -/
theorem http_handlers_frame (r : Registry) (body : PostBody)
    (now now2 : Nat) (nowIso : String) (e1 e2 : Except String Unit)
    (id : String) (data : SignatureReport) :
    step r ServerEvent.statusReq = r ∧
    step r (ServerEvent.triggerPost body now e1) = r ∧
    step r (ServerEvent.triggerGet now2 nowIso e2) = r ∧
    step r (ServerEvent.clientMessage id) = r ∧
    step r (ServerEvent.signMessageResult id data) = r := by
  refine ⟨rfl, ?_, ?_, rfl, rfl⟩
  · simp only [step, triggerSignPost]
    cases h : (Registry.size r == 0) <;> cases e1 <;> simp [h]
  · simp only [step, triggerSignGet]
    cases h : (Registry.size r == 0) <;> cases e2 <;> simp [h]

/-- C1: a POST or GET to /api/trigger-sign with k >= 1 registered
connections (distinct keys, the `Map` invariant) responds 200 with
`success:true`, a `clients` array that is exactly the key list (length k),
the message `Sign request sent to k client(s)`, and a `messageId`; and
every registered connection receives exactly one `triggerSign` delivery
whose `message` equals the broadcast Trigger Message's content. -/
theorem trigger_broadcast_ok (r : Registry) (body : PostBody) (now : Nat)
    (nowIso : String) (hk : 1 ≤ r.size) (hnd : r.keys.Nodup) :
    (triggerSignPost r body now (.ok ())).status = 200 ∧
    (triggerSignPost r body now (.ok ())).body.success = true ∧
    (triggerSignPost r body now (.ok ())).body.clients = some r.keys ∧
    r.keys.length = r.size ∧
    (triggerSignPost r body now (.ok ())).body.message =
      "Sign request sent to " ++ toString r.size ++ " client(s)" ∧
    (triggerSignPost r body now (.ok ())).body.messageId = some (toString now) ∧
    (∀ id ∈ r.keys,
      (triggerSignPost r body now (.ok ())).emits.filter (fun e => e.target == id) =
        [Emit.triggerSign id (postMessage body) (toString now)]) ∧
    (triggerSignGet r now nowIso (.ok ())).status = 200 ∧
    (triggerSignGet r now nowIso (.ok ())).body.success = true ∧
    (triggerSignGet r now nowIso (.ok ())).body.clients = some r.keys ∧
    (triggerSignGet r now nowIso (.ok ())).body.message =
      "Sign request sent to " ++ toString r.size ++ " client(s)" ∧
    (triggerSignGet r now nowIso (.ok ())).body.messageId = some (toString now) ∧
    (∀ id ∈ r.keys,
      (triggerSignGet r now nowIso (.ok ())).emits.filter (fun e => e.target == id) =
        [Emit.triggerSign id (getMessage nowIso) (toString now)]) := by
  have h0 : Registry.size r ≠ 0 := by omega
  have hpost : triggerSignPost r body now (.ok ()) =
      ⟨200,
       ⟨true, "Sign request sent to " ++ toString r.size ++ " client(s)",
        some r.keys, some (toString now), none⟩,
       r.keys.map (fun k => Emit.triggerSign k (postMessage body) (toString now)), r⟩ := by
    simp [triggerSignPost, h0]
  have hget : triggerSignGet r now nowIso (.ok ()) =
      ⟨200,
       ⟨true, "Sign request sent to " ++ toString r.size ++ " client(s)",
        some r.keys, some (toString now), none⟩,
       r.keys.map (fun k => Emit.triggerSign k (getMessage nowIso) (toString now)), r⟩ := by
    simp [triggerSignGet, h0]
  refine ⟨by rw [hpost], by rw [hpost], by rw [hpost], ?_, by rw [hpost],
          by rw [hpost], ?_, by rw [hget], by rw [hget], by rw [hget],
          by rw [hget], by rw [hget], ?_⟩
  · simp [Registry.keys, Registry.size]
  · intro id hid
    rw [hpost]
    show (r.keys.map (fun k => Emit.triggerSign k (postMessage body) (toString now))).filter
        (fun e => e.target == id) = _
    rw [filter_target_map, filter_nodup_mem r.keys id hnd hid]
    rfl
  · intro id hid
    rw [hget]
    show (r.keys.map (fun k => Emit.triggerSign k (getMessage nowIso) (toString now))).filter
        (fun e => e.target == id) = _
    rw [filter_target_map, filter_nodup_mem r.keys id hnd hid]
    rfl

/-- Witness for C1 at a registry with two clients: 200 response and the
single delivery to client `B`. -/
theorem trigger_broadcast_ok_witness :
    1 ≤ Registry.size regAB ∧
    (Registry.keys regAB).Nodup ∧
    (triggerSignPost regAB ⟨some "m1"⟩ 7 (.ok ())).status = 200 ∧
    (triggerSignPost regAB ⟨some "m1"⟩ 7 (.ok ())).emits.filter (fun e => e.target == "B") =
      [Emit.triggerSign "B" (postMessage ⟨some "m1"⟩) (toString 7)] :=
  ⟨by decide, by decide,
   (trigger_broadcast_ok regAB ⟨some "m1"⟩ 7 "t" (by decide) (by decide)).1,
   (trigger_broadcast_ok regAB ⟨some "m1"⟩ 7 "t" (by decide)
     (by decide)).2.2.2.2.2.2.1 "B" (by decide)⟩

/-- C3 counterexample: with body `{message: ""}` the `message` field is
present, yet the broadcast carries the default string, not `""` — because
line 114 tests truthiness, and the empty string is falsy. -/
theorem post_present_empty_message_counterexample :
    (PostBody.mk (some "")).message = some "" ∧
    (triggerSignPost regA ⟨some ""⟩ 0 (.ok ())).emits =
      [Emit.triggerSign "A" "Please sign this message from the server." "0"] ∧
    "Please sign this message from the server." ≠ "" := by
  refine ⟨rfl, by decide, by decide⟩

/-- C3 (amended): the broadcast message equals the body's `message` field
whenever that field is present and non-empty (truthy); it is the default
string when the field is absent or present-but-empty; and the POST handler
broadcasts exactly that selected message to every registered key. -/
theorem post_message_selection (r : Registry) (body : PostBody) (now : Nat)
    (h : 1 ≤ r.size) :
    (∀ s, body.message = some s → s ≠ "" → postMessage body = s) ∧
    ((body.message = none ∨ body.message = some "") →
      postMessage body = "Please sign this message from the server.") ∧
    (triggerSignPost r body now (.ok ())).emits =
      r.keys.map (fun k => Emit.triggerSign k (postMessage body) (toString now)) := by
  have h0 : Registry.size r ≠ 0 := by omega
  refine ⟨?_, ?_, ?_⟩
  · intro s hs hne
    simp [postMessage, hs, hne]
  · rintro (hb | hb) <;> simp [postMessage, hb]
  · simp [triggerSignPost, h0]

/-- Witness for C3 (amended): body `{message:"Sign XYZ"}` with one client
broadcasts exactly `"Sign XYZ"`. -/
theorem post_message_selection_witness :
    1 ≤ Registry.size regA ∧
    postMessage ⟨some "Sign XYZ"⟩ = "Sign XYZ" ∧
    (triggerSignPost regA ⟨some "Sign XYZ"⟩ 4 (.ok ())).emits =
      (Registry.keys regA).map
        (fun k => Emit.triggerSign k (postMessage ⟨some "Sign XYZ"⟩) (toString 4)) :=
  ⟨by decide,
   (post_message_selection regA ⟨some "Sign XYZ"⟩ 4 (by decide)).1 "Sign XYZ" rfl (by decide),
   (post_message_selection regA ⟨some "Sign XYZ"⟩ 4 (by decide)).2.2⟩

/-- C5: /api/status always responds 200 with exactly
`{status:"online", connectedClients: size, clients: (id, connectedSince)
projection of the values}`; and in the scenario connect A, connect B,
disconnect A (with distinct ids), the reported counts are 1, 2, 1 and the
final `clients` holds only B's id. -/
theorem api_status_ok (r : Registry) (A B : ClientInfo) (hAB : A.id ≠ B.id) :
    apiStatus r =
      ⟨200,
       ⟨"online", r.size, r.values.map (fun c => (c.id, c.connectedAt))⟩,
       r⟩ ∧
    (apiStatus ((handleConnection [] A).1)).body.connectedClients = 1 ∧
    (apiStatus ((handleConnection ((handleConnection [] A).1) B).1)).body.connectedClients = 2 ∧
    (apiStatus (handleDisconnect
      ((handleConnection ((handleConnection [] A).1) B).1) A.id)).body.connectedClients = 1 ∧
    (apiStatus (handleDisconnect
      ((handleConnection ((handleConnection [] A).1) B).1) A.id)).body.clients.map Prod.fst =
      [B.id] := by
  have h1 : (A.id == B.id) = false := by
    simp only [beq_eq_false_iff_ne]; exact hAB
  have h2 : (B.id == A.id) = false := by
    simp only [beq_eq_false_iff_ne]; exact Ne.symm hAB
  have hr1 : (handleConnection [] A).1 = [(A.id, A)] := by
    simp [handleConnection, Registry.has, Registry.set]
  have hr2 : (handleConnection [(A.id, A)] B).1 = [(A.id, A), (B.id, B)] := by
    simp [handleConnection, Registry.has, Registry.set, h1]
  have hr3 : handleDisconnect [(A.id, A), (B.id, B)] A.id = [(B.id, B)] := by
    simp [handleDisconnect, Registry.delete, List.filter_cons, h2]
  rw [hr1, hr2, hr3]
  exact ⟨rfl, rfl, rfl, rfl, rfl⟩

/-- Witness for C5 with the concrete sessions A and B. -/
theorem api_status_ok_witness :
    infoA.id ≠ infoB.id ∧
    (apiStatus (handleDisconnect
      ((handleConnection ((handleConnection [] infoA).1) infoB).1) infoA.id)).body.clients.map
        Prod.fst = [infoB.id] :=
  ⟨by decide, (api_status_ok [] infoA infoB (by decide)).2.2.2.2⟩

/-- C8 counterexample: a listen-time error whose code is not `EADDRINUSE`
(here `EACCES`) also calls `process.exit` — the `else` branch on line 195
exits too, so a port conflict is not the only self-termination condition. -/
theorem process_exit_counterexample :
    callsProcessExit (ServerEvent.listenError "EACCES") = true ∧
    isAddrInUse (ServerEvent.listenError "EACCES") = false := by
  exact ⟨by decide, by decide⟩

/-- C8 (amended): the server terminates itself exactly on listen-time
startup errors — `EADDRINUSE` with a port-conflict diagnostic and any
other listen error with a generic diagnostic, both exiting — and no other
event's handler calls `process.exit`. -/
theorem process_exit_only_listen (e : ServerEvent) (port : Nat) :
    (callsProcessExit e = true ↔ ∃ c, e = ServerEvent.listenError c) ∧
    (handleListenError port "EADDRINUSE").1 =
      "Port " ++ toString port ++ " is already in use. Please: 1. Stop any other process using port "
        ++ toString port ++ ", or 2. Use a different port by setting the PORT environment variable" ∧
    (handleListenError port "EADDRINUSE").2 = true := by
  refine ⟨?_, rfl, rfl⟩
  cases e with
  | listenError c =>
      simp only [callsProcessExit, handleListenError]
      constructor
      · intro _; exact ⟨c, rfl⟩
      · intro _; split <;> rfl
  | connection info => simp [callsProcessExit]
  | disconnect id reason => simp [callsProcessExit]
  | socketError id => simp [callsProcessExit]
  | clientMessage id => simp [callsProcessExit]
  | signMessageResult id data => simp [callsProcessExit]
  | statusReq => simp [callsProcessExit]
  | triggerPost body now e => simp [callsProcessExit]
  | triggerGet now nowIso e => simp [callsProcessExit]

/-- C10: when the report's `message` field is a string, the handler emits
exactly one acknowledgement `serverMessage` to the originating session,
with the message truncated to its first 30 characters plus `...` when
longer; when `message` is not a string, the acknowledgement construction
throws and the handler produces no emit. -/
theorem sign_result_ack (sid : String) (data : SignatureReport) :
    (∀ s, data.message = JsVal.str s →
      handleSignMessageResult sid data = .ok [Emit.serverMessage sid (ackText s)]) ∧
    (∀ s, 30 < s.length →
      ackText s = "Signature received for message: \x22" ++ s.take 30 ++ "...\x22") ∧
    (∀ s, s.length ≤ 30 →
      ackText s = "Signature received for message: \x22" ++ s ++ "\x22") ∧
    ((∀ s, data.message ≠ JsVal.str s) →
      handleSignMessageResult sid data =
        .error "TypeError: data.message.substring is not a function") := by
  refine ⟨?_, ?_, ?_, ?_⟩
  · intro s hs
    simp [handleSignMessageResult, hs]
  · intro s hlong
    simp [ackText, hlong, String.append_assoc]
  · intro s hshort
    have hnot : ¬(30 < s.length) := by omega
    have htake : s.take 30 = s := by
      apply String.ext
      rw [String.data_take]
      exact List.take_of_length_le hshort
    simp [ackText, hnot, htake]
  · intro h
    cases hm : data.message with
    | str s => exact absurd hm (h s)
    | num n => simp [handleSignMessageResult, hm]
    | boolean b => simp [handleSignMessageResult, hm]
    | nullVal => simp [handleSignMessageResult, hm]
    | undef => simp [handleSignMessageResult, hm]

/-- Witness for C10: a string message gets exactly one acknowledgement, a
non-string message throws. -/
theorem sign_result_ack_witness :
    handleSignMessageResult "A" ⟨some "0xacc", JsVal.str "hello", some "0xsig"⟩ =
      .ok [Emit.serverMessage "A" (ackText "hello")] ∧
    handleSignMessageResult "A" ⟨some "0xacc", JsVal.undef, some "0xsig"⟩ =
      .error "TypeError: data.message.substring is not a function" :=
  ⟨(sign_result_ack "A" ⟨some "0xacc", JsVal.str "hello", some "0xsig"⟩).1 "hello" rfl,
   (sign_result_ack "A" ⟨some "0xacc", JsVal.undef, some "0xsig"⟩).2.2.2
     (by intro s hs; cases hs)⟩

/-- Witness for C6: removal of the absent id `Z` is a no-op and double
removal of `A` equals single removal. -/
theorem remove_idempotent_witness :
    Registry.has regA "Z" = false ∧
    handleDisconnect regA "Z" = regA ∧
    handleDisconnect (handleDisconnect regA "A") "A" = handleDisconnect regA "A" :=
  ⟨by decide, (remove_idempotent regA "Z").2.2.2 (by decide),
   (remove_idempotent regA "A").1⟩
